import Mathlib

/-!
Shallow embedding of `src/inventory-service/app.py`: the reservation engine
(the Lua check-and-decrement script and the `/reserve` endpoint), the
`GET /inventory/{item}` endpoint, the broker connection manager
(`connect_broker`) and the consumer callback.
-/

namespace InventoryService

/-- The Redis key-value store restricted to what the service uses:
integer stock values under string item keys (`decode_responses=True`;
the service always converts values with `int(...)`). -/
def Store := String → Option Int

/-- A `SET key v` on the store. -/
def Store.set (st : Store) (item : String) (v : Int) : Store :=
  fun k => if k = item then some v else st k

/-- The empty store (fresh Redis instance, no keys). -/
def emptyStore : Store := fun _ => none

/-- The Lua script evaluated by `r.eval` in `reserve` (app.py lines 99-114):
read `cur = GET key`; if absent, set `key` to `default` and use it as `cur`;
if `cur < qty` return the sentinel `-1` without decrementing; otherwise
`DECRBY key qty` and return the new value.  Returns the script result and
the store after the call. -/
def reserveScript (st : Store) (item : String) (qty dflt : Int) : Int × Store :=
  match st item with
  | none =>
      let cur := dflt
      let st1 := st.set item cur
      if cur < qty then (-1, st1)
      else (cur - qty, st1.set item (cur - qty))
  | some cur =>
      if cur < qty then (-1, st)
      else (cur - qty, st.set item (cur - qty))

/-- A JSON value as Python's `int(...)` conversion sees it: either
convertible to an integer (an int, an int-parsable string, ...) or not
(a non-numeric string, `null`, a list, ...), in which case `int(...)`
raises `ValueError`/`TypeError`. -/
inductive IntLike
  | nonNumeric
  | num (n : Int)
deriving DecidableEq, Repr

/-- The parsed JSON body of a `POST /reserve` request: each of the two
fields the handler looks up may be present or absent, and a present
`quantity` may or may not be integer-convertible. -/
structure ReqData where
  item : Option String
  quantity : Option IntLike

/-- Responses of the `/reserve` handler, by code path:
`badRequest` is the 400 `{"error": "item and quantity required"}` response,
`internalError` the generic 500 page Flask produces when the handler
raises an uncaught exception (`int(data["quantity"])` on a
non-integer-convertible value, app.py line 95),
`storeError` the handler's own 500 `{"error": "redis error", ...}`
response, and `ok success remaining` the 200
`{"success": ..., "remaining": ...}` body. -/
inductive ReserveResp
  | badRequest
  | internalError
  | storeError
  | ok (success : Bool) (remaining : Int)
deriving DecidableEq, Repr

/-- The `/reserve` endpoint (app.py lines 89-125).  `data` is
`request.get_json()` (`none` when the body is not a JSON object).  After
the presence check, `int(data["quantity"])` runs BEFORE the store call
and is not wrapped in any `try/except`: on a non-convertible value it
raises, and Flask answers with its generic 500 (`internalError`).
`storeFails` models the `try/except` around `r.eval` raising (store
unreachable / transaction failure).  On the `-1` sentinel the handler
re-reads the key with `GET` and answers `success: false` with that value
(falling back to `default` when the key is absent). -/
def reserve (data : Option ReqData) (storeFails : Bool) (dflt : Int)
    (st : Store) : ReserveResp × Store :=
  match data with
  | none => (.badRequest, st)
  | some d =>
    match d.item, d.quantity with
    | some item, some qv =>
        match qv with
        | .nonNumeric => (.internalError, st)
        | .num qty =>
            if storeFails then (.storeError, st)
            else
              let res := (reserveScript st item qty dflt).1
              let st1 := (reserveScript st item qty dflt).2
              if res = -1 then
                (.ok false ((st1 item).getD dflt), st1)
              else
                (.ok true res, st1)
    | some _, none => (.badRequest, st)
    | none, _ => (.badRequest, st)

/-- The `GET /inventory/{item}` endpoint (app.py lines 81-86): a plain
`GET` of the key, answering stock `0` when the key is absent.  Returns
the `{item, stock}` body together with the store after the call. -/
def get_inventory (st : Store) (item : String) : (String × Int) × Store :=
  match st item with
  | none => ((item, 0), st)
  | some s => ((item, s), st)

end InventoryService

namespace InventoryService

/-- One reservation call per element of `qs`, all against the same `item`
with default `dflt`, each executing the atomic script.  Returns the list of
(requested quantity, script result) pairs and the final store. -/
def runReservations (item : String) (dflt : Int) :
    List Int → Store → List (Int × Int) × Store
  | [], st => ([], st)
  | q :: rest, st =>
      let r := reserveScript st item q dflt
      let t := runReservations item dflt rest r.2
      ((q, r.1) :: t.1, t.2)

/-- The store after each call of `runReservations`, in order. -/
def runStates (item : String) (dflt : Int) :
    List Int → Store → List Store
  | [], _ => []
  | q :: rest, st =>
      let st1 := (reserveScript st item q dflt).2
      st1 :: runStates item dflt rest st1

/-- Sum of the quantities of the successful calls: the script reports
failure by the `-1` sentinel. -/
def successfulSum : List (Int × Int) → Int
  | [] => 0
  | (q, r) :: rest => (if r = -1 then 0 else q) + successfulSum rest

/-- The module-level globals `connection` and `channel` (app.py lines
26-27), both `None` until a connect succeeds.  Handles are abstract and
modelled as numbers. -/
structure BrokerState where
  connection : Option Nat
  channel : Option Nat
deriving DecidableEq, Repr

/-- The network: what one connection attempt (numbered from 0, the loop
index) yields — `some (conn, ch)` when `pika.BlockingConnection`,
`connection.channel()` and the queue declaration all succeed, `none` when
any of them raises. -/
def Net := Nat → Option (Nat × Nat)

/-- The retry loop of `connect_broker` (app.py lines 44-57): starting at
loop index `attempt` with `fuel` iterations left, try the attempt; on
success stop; on failure compute `wait = retry_base * (attempt + 1)`,
sleep, and continue.  Returns the result (`none` once the loop is
exhausted, after which the code raises `RuntimeError`), the number of
attempts performed, and the list of backoff waits slept, in order. -/
def connectGo (net : Net) (retry_base : Int) :
    Nat → Nat → Option (Nat × Nat) × Nat × List Int
  | _, 0 => (none, 0, [])
  | attempt, fuel + 1 =>
      match net attempt with
      | some cc => (some cc, 1, [])
      | none =>
          let wait := retry_base * ((attempt : Int) + 1)
          let t := connectGo net retry_base (attempt + 1) fuel
          (t.1, t.2.1 + 1, wait :: t.2.2)

/-- `connect_broker` (app.py lines 29-57).  If both globals are already
set it returns the cached channel at once; otherwise it runs the retry
loop over `max_retries` attempts, caching the handles on success and
raising (`none` result) on exhaustion.  Returns the channel result, the
number of connection attempts performed, the backoff waits, and the
updated globals. -/
def connect_broker (net : Net) (max_retries : Nat) (retry_base : Int)
    (st : BrokerState) : Option Nat × Nat × List Int × BrokerState :=
  match st.channel, st.connection with
  | some ch, some _ => (some ch, 0, [], st)
  | _, _ =>
      let t := connectGo net retry_base 0 max_retries
      match t.1 with
      | some cc => (some cc.2, t.2.1, t.2.2, ⟨some cc.1, some cc.2⟩)
      | none => (none, t.2.1, t.2.2, st)

/-- A delivered message body as the consumer callback examines it:
`json.loads(body)` either fails or yields an object in which the `item`
and `quantity` keys may each be absent; a present `quantity` is either
convertible by `int(...)` or not (`IntLike`). -/
inductive MsgBody
  | unparsable
  | obj (item : Option String) (quantity : Option IntLike)
deriving DecidableEq, Repr

/-- Python exceptions the callback body can raise. -/
inductive PyError
  | jsonDecodeError
  | keyError (k : String)
  | valueError
deriving DecidableEq, Repr

/-- Process state seen by the consumer: the Prometheus processed-orders
counter and the shared stock store. -/
structure ConsumerState where
  processed : Nat
  store : Store

/-- The per-message handler `callback` (app.py lines 61-70):
`json.loads(body)`, then `order["item"]`, then `int(order["quantity"])`,
then `processed_counter.inc()` and a log line.  Any of the first three
steps raising propagates as an error; there is no `try/except`. -/
def callback (body : MsgBody) (st : ConsumerState) :
    Except PyError ConsumerState :=
  match body with
  | .unparsable => .error .jsonDecodeError
  | .obj item quantity =>
      match item with
      | none => .error (.keyError "item")
      | some _ =>
          match quantity with
          | none => .error (.keyError "quantity")
          | some .nonNumeric => .error .valueError
          | some (.num _) => .ok { st with processed := st.processed + 1 }

/-- The consuming loop driven by `ch.start_consuming()` with
`auto_ack=True` (app.py lines 75-79): messages are handled in delivery
order; an exception raised by the callback propagates out of
`start_consuming` and ends the loop. -/
def consumeLoop : List MsgBody → ConsumerState → Except PyError ConsumerState
  | [], st => .ok st
  | m :: ms, st =>
      match callback m st with
      | .error e => .error e
      | .ok st1 => consumeLoop ms st1

/-! ## Theorems -/

/-- C2: the code does NOT treat a non-positive quantity as invalid.  At the
failing input (fresh item `"w"`, default 100, quantity `-5`) the `/reserve`
handler reports `success: true` with remaining 105 and mutates the stock:
the `DECRBY` by a negative quantity increases the stored value to 105. -/
theorem reserve_negative_quantity_bug :
    (reserve (some ⟨some "w", some (IntLike.num (-5))⟩) false 100 emptyStore).1
        = ReserveResp.ok true 105 ∧
    (reserve (some ⟨some "w", some (IntLike.num (-5))⟩) false 100 emptyStore).2 "w"
        = some 105 := by
  constructor <;> rfl

/-- C3: the per-message handler DOES raise on malformed messages.  An
unparsable body makes `json.loads` raise, which propagates out of the
consuming loop and ends it; a parsable body missing the `item` key raises
`KeyError`.  There is no `try/except` in `callback`. -/
theorem consumer_crashes_on_malformed :
    consumeLoop [MsgBody.unparsable] ⟨0, emptyStore⟩
        = Except.error PyError.jsonDecodeError ∧
    callback (MsgBody.obj none none) ⟨0, emptyStore⟩
        = Except.error (PyError.keyError "item") := by
  constructor <;> rfl

/-- C4: when the item is present with stock `c` and the requested quantity
`q` exceeds it, `/reserve` leaves the store unchanged and answers
`success: false` with `remaining = c`. -/
theorem reserve_insufficient_unchanged (st : Store) (D : Int) (i : String)
    (q c : Int) (hc : st i = some c) (hq : c < q) :
    reserve (some ⟨some i, some (IntLike.num q)⟩) false D st = (ReserveResp.ok false c, st) := by
  simp [reserve, reserveScript, hc, hq]

/-- Witness for C4: item `"w"` holding 70, quantity 1000. -/
theorem reserve_insufficient_unchanged_witness :
    reserve (some ⟨some "w", some (IntLike.num 1000)⟩) false 100 (emptyStore.set "w" 70)
      = (ReserveResp.ok false 70, emptyStore.set "w" 70) :=
  reserve_insufficient_unchanged (emptyStore.set "w" 70) 100 "w" 1000 70
    (by decide) (by decide)

/-- C5: a reserve call on an absent item first sets the key to the default
`D` inside the script, before the sufficiency check; when the reservation
is then rejected (`D < q`) the initialization persists — the final store
holds `some D` for the item and a subsequent `GET /inventory` returns
stock `D`, not 0. -/
theorem reserve_initializes_default (st : Store) (D : Int) (i : String)
    (q : Int) (habs : st i = none) (hq : D < q) :
    reserve (some ⟨some i, some (IntLike.num q)⟩) false D st
        = (ReserveResp.ok false D, st.set i D) ∧
    (st.set i D) i = some D ∧
    get_inventory (st.set i D) i = ((i, D), st.set i D) := by
  refine ⟨?_, ?_, ?_⟩
  · simp [reserve, reserveScript, habs, hq, Store.set]
  · simp [Store.set]
  · simp [get_inventory, Store.set]

/-- Witness for C5: fresh item `"widget"`, default 100, quantity 1000. -/
theorem reserve_initializes_default_witness :
    reserve (some ⟨some "widget", some (IntLike.num 1000)⟩) false 100 emptyStore
        = (ReserveResp.ok false 100, emptyStore.set "widget" 100) ∧
    (emptyStore.set "widget" 100) "widget" = some 100 ∧
    get_inventory (emptyStore.set "widget" 100) "widget"
        = (("widget", 100), emptyStore.set "widget" 100) :=
  reserve_initializes_default emptyStore 100 "widget" 1000 (by decide) (by decide)

/-- C7: once a connect has succeeded (both globals set), a further
`connect_broker` call returns the cached channel immediately: zero
connection attempts, no backoff waits, globals unchanged. -/
theorem connect_broker_idempotent (net : Net) (m : Nat) (base : Int)
    (st : BrokerState) (conn ch : Nat)
    (hch : st.channel = some ch) (hconn : st.connection = some conn) :
    connect_broker net m base st = (some ch, 0, [], st) := by
  simp [connect_broker, hch, hconn]

/-- Witness for C7: globals holding connection 1 and channel 2. -/
theorem connect_broker_idempotent_witness :
    connect_broker (fun _ => none) 10 2 ⟨some 1, some 2⟩
        = (some 2, 0, [], (⟨some 1, some 2⟩ : BrokerState)) :=
  connect_broker_idempotent (fun _ => none) 10 2 ⟨some 1, some 2⟩ 1 2 rfl rfl

/-- C9: on a well-formed order event the callback increments the
processed-orders counter by exactly 1 and leaves the stock store exactly
as it was: the consumer path never mutates inventory. -/
theorem callback_increments_counter_only (i : String) (q : Int)
    (st : ConsumerState) :
    callback (MsgBody.obj (some i) (some (IntLike.num q))) st
        = Except.ok ⟨st.processed + 1, st.store⟩ :=
  rfl

/-- C10: `GET /inventory/{item}` answers stock 0 when the key is absent
and the stored value otherwise, and in both cases returns the store
unchanged — it never creates the key or applies the default
initialization. -/
theorem get_inventory_read_only (st : Store) (item : String) :
    (st item = none → get_inventory st item = ((item, 0), st)) ∧
    (∀ v, st item = some v → get_inventory st item = ((item, v), st)) := by
  constructor
  · intro h; simp [get_inventory, h]
  · intro v h; simp [get_inventory, h]

/-- Witness for C10: the empty store and a store holding `"w" ↦ 70`. -/
theorem get_inventory_read_only_witness :
    get_inventory emptyStore "w" = (("w", 0), emptyStore) ∧
    get_inventory (emptyStore.set "w" 70) "w"
        = (("w", 70), emptyStore.set "w" 70) :=
  ⟨(get_inventory_read_only emptyStore "w").1 rfl,
   (get_inventory_read_only (emptyStore.set "w" 70) "w").2 70 (by decide)⟩

/-- Setting a key and reading it back. -/
theorem Store.set_same (st : Store) (i : String) (v : Int) :
    (st.set i v) i = some v := by
  simp [Store.set]

/-- The script on a present key: compare and either keep or decrement. -/
theorem reserveScript_present (st : Store) (i : String) (q D c : Int)
    (hc : st i = some c) :
    reserveScript st i q D =
      if c < q then (-1, st) else (c - q, st.set i (c - q)) := by
  simp [reserveScript, hc]

/-- The script on an absent key behaves exactly as on the key freshly set
to the default: the `SET key default` happens before the comparison. -/
theorem reserveScript_absent (st : Store) (i : String) (q D : Int)
    (habs : st i = none) :
    reserveScript st i q D = reserveScript (st.set i D) i q D := by
  simp [reserveScript, habs, Store.set]

/-- Invariant of reservation sequences against a PRESENT key holding a
non-negative value `c`: the successful quantities sum to at most `c`, the
final value is exactly `c` minus that sum, and every intermediate stored
value stays non-negative. -/
theorem runReservations_present_invariant (i : String) (D : Int) :
    ∀ (qs : List Int) (st : Store) (c : Int), 0 ≤ c → st i = some c →
      successfulSum (runReservations i D qs st).1 ≤ c ∧
      (runReservations i D qs st).2 i
          = some (c - successfulSum (runReservations i D qs st).1) ∧
      (∀ st' ∈ runStates i D qs st, ∀ v, st' i = some v → 0 ≤ v) := by
  intro qs
  induction qs with
  | nil =>
      intro st c hc hst
      refine ⟨by simpa [runReservations, successfulSum] using hc, ?_, ?_⟩
      · simpa [runReservations, successfulSum] using hst
      · simp [runStates]
  | cons q rest ih =>
      intro st c hc hst
      by_cases hlt : c < q
      · have hr : reserveScript st i q D = (-1, st) := by
          rw [reserveScript_present st i q D c hst]; simp [hlt]
        obtain ⟨ihs, ihf, ihinv⟩ := ih st c hc hst
        refine ⟨?_, ?_, ?_⟩
        · simpa [runReservations, hr, successfulSum] using ihs
        · simpa [runReservations, hr, successfulSum] using ihf
        · intro st' hmem v hv
          simp only [runStates, hr, List.mem_cons] at hmem
          rcases hmem with h | h
          · subst h; rw [hst] at hv; injection hv with hv; omega
          · exact ihinv st' h v hv
      · have hge : 0 ≤ c - q := by omega
        have hr : reserveScript st i q D = (c - q, st.set i (c - q)) := by
          rw [reserveScript_present st i q D c hst]; simp [hlt]
        have hsent : ¬((c - q : Int) = -1) := by omega
        obtain ⟨ihs, ihf, ihinv⟩ :=
          ih (st.set i (c - q)) (c - q) hge (Store.set_same st i (c - q))
        refine ⟨?_, ?_, ?_⟩
        · simp only [runReservations, hr, successfulSum, if_neg hsent]
          omega
        · simp only [runReservations, hr, successfulSum, if_neg hsent]
          rw [ihf]
          congr 1
          omega
        · intro st' hmem v hv
          simp only [runStates, hr, List.mem_cons] at hmem
          rcases hmem with h | h
          · subst h; rw [Store.set_same] at hv; injection hv with hv; omega
          · exact ihinv st' h v hv

/-- A non-empty reservation sequence against a FRESH key runs exactly as
against the key initialized to the default. -/
theorem runReservations_fresh_init (i : String) (D : Int) (q : Int)
    (rest : List Int) (st : Store) (habs : st i = none) :
    runReservations i D (q :: rest) st
        = runReservations i D (q :: rest) (st.set i D) ∧
    runStates i D (q :: rest) st = runStates i D (q :: rest) (st.set i D) := by
  have h := reserveScript_absent st i q D habs
  constructor <;> simp [runReservations, runStates, h]

/-- C1: for every non-empty sequence of positive-quantity reservation
calls on a fresh item with default `D ≥ 0`, each executing the atomic
script, the successful quantities sum to at most `D`, the final stock
equals `D` minus that sum, and the stored value, once present, is
non-negative after every call. -/
theorem fresh_item_reservation_invariant (i : String) (D : Int)
    (qs : List Int) (st : Store) (hpos : ∀ q ∈ qs, 0 < q) (hD : 0 ≤ D)
    (hfresh : st i = none) (hne : qs ≠ []) :
    successfulSum (runReservations i D qs st).1 ≤ D ∧
    (runReservations i D qs st).2 i
        = some (D - successfulSum (runReservations i D qs st).1) ∧
    (∀ st' ∈ runStates i D qs st, ∀ v, st' i = some v → 0 ≤ v) := by
  match qs, hne with
  | q :: rest, _ =>
      obtain ⟨h1, h2⟩ := runReservations_fresh_init i D q rest st hfresh
      rw [h1, h2]
      exact runReservations_present_invariant i D (q :: rest) (st.set i D) D
        hD (Store.set_same st i D)

/-- Witness for C1: quantities `[30, 50, 40]` on fresh item `"w"` with
default 100 — the third call is rejected, the successful sum is 80 and
the final stock 20. -/
theorem fresh_item_reservation_invariant_witness :
    successfulSum (runReservations "w" 100 [30, 50, 40] emptyStore).1 ≤ 100 ∧
    (runReservations "w" 100 [30, 50, 40] emptyStore).2 "w"
        = some (100 - successfulSum
            (runReservations "w" 100 [30, 50, 40] emptyStore).1) ∧
    (∀ st' ∈ runStates "w" 100 [30, 50, 40] emptyStore,
        ∀ v, st' "w" = some v → 0 ≤ v) :=
  fresh_item_reservation_invariant "w" 100 [30, 50, 40] emptyStore
    (by decide) (by decide) rfl (by decide)

/-- The retry loop against an always-failing target: every attempt is
consumed, no result, and the wait slept after the attempt at loop index
`a + j` is `base * (a + j + 1)`. -/
theorem connectGo_always_fails (base : Int) : ∀ (fuel a : Nat),
    connectGo (fun _ => none) base a fuel =
      (none, fuel, (List.range fuel).map
        fun j : Nat => base * ((a : Int) + (j : Int) + 1)) := by
  intro fuel
  induction fuel with
  | zero => intro a; rfl
  | succ n ih =>
      intro a
      rw [List.range_succ_eq_map]
      simp only [connectGo, ih (a + 1), List.map_cons, List.map_map]
      refine congrArg _ (congrArg _ (congrArg₂ _ ?_ ?_))
      · push_cast; ring
      · apply List.map_congr_left
        intro x _
        simp only [Function.comp]
        push_cast
        ring

/-- C6: starting disconnected against an always-failing target with
`max_retries = m ≥ 1` and backoff base `≥ 1`, `connect_broker` performs
exactly `m` connection attempts, yields no channel (the code then raises
`RuntimeError`), the `j`-th backoff wait is `base * (j + 1)` — i.e.
`base * attempt_number` with attempts numbered from 1 — and the waits
strictly increase. -/
theorem connect_broker_exhausts_retries (m : Nat) (base : Int)
    (hm : 1 ≤ m) (hb : 1 ≤ base) :
    (connect_broker (fun _ => none) m base ⟨none, none⟩).1 = none ∧
    (connect_broker (fun _ => none) m base ⟨none, none⟩).2.1 = m ∧
    (connect_broker (fun _ => none) m base ⟨none, none⟩).2.2.1 =
      (List.range m).map (fun j : Nat => base * ((j : Int) + 1)) ∧
    List.Pairwise (· < ·)
      (connect_broker (fun _ => none) m base ⟨none, none⟩).2.2.1 := by
  have hgo := connectGo_always_fails base m 0
  have hcb : connect_broker (fun _ => none) m base ⟨none, none⟩
      = (none, m, (List.range m).map (fun j : Nat => base * ((j : Int) + 1)),
          ⟨none, none⟩) := by
    simp only [connect_broker, hgo]
    norm_num
  refine ⟨by rw [hcb], by rw [hcb], by rw [hcb], ?_⟩
  rw [hcb]
  refine (List.pairwise_lt_range m).map _ ?_
  intro a b hab
  have hb0 : (0 : Int) < base := by omega
  have : ((a : Int) + 1) < ((b : Int) + 1) := by
    have : (a : Int) < (b : Int) := by exact_mod_cast hab
    omega
  exact mul_lt_mul_of_pos_left this hb0

/-- Witness for C6: `max_retries = 3`, base 2 — three attempts, no
channel, waits `[2, 4, 6]`. -/
theorem connect_broker_exhausts_retries_witness :
    (connect_broker (fun _ => none) 3 2 ⟨none, none⟩).1 = none ∧
    (connect_broker (fun _ => none) 3 2 ⟨none, none⟩).2.1 = 3 ∧
    (connect_broker (fun _ => none) 3 2 ⟨none, none⟩).2.2.1 =
      (List.range 3).map (fun j : Nat => 2 * ((j : Int) + 1)) ∧
    List.Pairwise (· < ·)
      (connect_broker (fun _ => none) 3 2 ⟨none, none⟩).2.2.1 :=
  connect_broker_exhausts_retries 3 2 (by decide) (by decide)

end InventoryService
